import Mathlib

/-!
A shallow embedding of the data-normalization and graph-assembly pipeline of
the Crypto-Compliance-Visualiser repository, file
src/data/EllipticDataLoader.js (class EllipticDataLoader), together with
theorems settling the specification claims about it.

JavaScript scalar values appearing in parsed CSV rows are modelled by the
type JSVal (strings, finite numbers, NaN, booleans, null); an absent object
property (undefined) is modelled by Option. JS numbers are modelled as exact
rationals, with NaN explicit; the floors of the sampler proportions
(sampleSize * 0.1 and so on) are modelled as exact rational floors, that is
natural division, which agrees with IEEE evaluation at the sizes involved.
Rows are association lists from column name to JSVal.
-/

/-- A JavaScript scalar value as it appears in a parsed CSV row. -/
inductive JSVal where
  | str (s : String)
  | num (q : ℚ)
  | nan
  | bool (b : Bool)
  | null
deriving DecidableEq, Repr

/-- JS truthiness: 0, NaN, the empty string, false and null are falsy. -/
def truthy : JSVal → Bool
  | JSVal.str s => !(s == "")
  | JSVal.num q => !(q == 0)
  | JSVal.nan => false
  | JSVal.bool b => b
  | JSVal.null => false

/-- A parsed CSV row: association list from column name to scalar value.
An absent column models the JS property value undefined. -/
abbrev Row := List (String × JSVal)

/-- The JS expression a or-or b: a when truthy, otherwise b; an Option none
models undefined, which is falsy. -/
def jsOr (a b : Option JSVal) : Option JSVal :=
  match a with
  | some v => if truthy v then some v else b
  | none => b

/-- The JS expression x or-or d with a literal default d. -/
def jsOrDefault (x : Option JSVal) (d : JSVal) : JSVal :=
  match x with
  | some v => if truthy v then v else d
  | none => d

/-- The check used throughout the loader: value is undefined or null. -/
def isUndefOrNull : Option JSVal → Bool
  | none => true
  | some JSVal.null => true
  | some _ => false

/-- JS String() conversion, as used for template literals and object keys.
Integral numbers print as their integer; non-integral rationals use a
num/den rendering (only ever used as an opaque key or label here). -/
def jsToStr : JSVal → String
  | JSVal.str s => s
  | JSVal.num q => if q.den = 1 then toString q.num else toString q.num ++ "/" ++ toString q.den
  | JSVal.nan => "NaN"
  | JSVal.bool b => if b then "true" else "false"
  | JSVal.null => "null"

/-- Whitespace skipped by JS parseInt and parseFloat. -/
def isWsChar (c : Char) : Bool :=
  c == ' ' || c == '\t' || c == '\n' || c == '\r'

/-- Value of a list of decimal digit characters. -/
def digitsToNat (ds : List Char) : ℕ :=
  ds.foldl (fun a c => a * 10 + (c.toNat - 48)) 0

/-- JS parseInt on a string (decimal): skip whitespace, optional sign,
longest digit prefix; none models NaN. -/
def parseIntStr (s : String) : Option Int :=
  let cs := s.data.dropWhile isWsChar
  let sr : Int × List Char :=
    match cs with
    | '-' :: rest => (-1, rest)
    | '+' :: rest => (1, rest)
    | _ => (1, cs)
  let ds := sr.2.takeWhile Char.isDigit
  if ds.isEmpty then none else some (sr.1 * (digitsToNat ds : Int))

/-- Exponent part of a JS float literal; a malformed exponent contributes 0,
as JS parseFloat then stops before the e. -/
def parseExpPart (cs : List Char) : Int :=
  match cs with
  | '-' :: rest =>
    let ds := rest.takeWhile Char.isDigit
    if ds.isEmpty then 0 else -(digitsToNat ds : Int)
  | '+' :: rest =>
    let ds := rest.takeWhile Char.isDigit
    if ds.isEmpty then 0 else (digitsToNat ds : Int)
  | _ =>
    let ds := cs.takeWhile Char.isDigit
    if ds.isEmpty then 0 else (digitsToNat ds : Int)

/-- JS parseFloat on a string: skip whitespace, optional sign, decimal
mantissa, optional exponent; none models NaN. -/
def parseFloatStr (s : String) : Option ℚ :=
  let cs := s.data.dropWhile isWsChar
  let sr : ℚ × List Char :=
    match cs with
    | '-' :: rest => (-1, rest)
    | '+' :: rest => (1, rest)
    | _ => (1, cs)
  let intDs := sr.2.takeWhile Char.isDigit
  let afterInt := sr.2.dropWhile Char.isDigit
  let fracDs : List Char :=
    match afterInt with
    | '.' :: rest => rest.takeWhile Char.isDigit
    | _ => []
  if intDs.isEmpty && fracDs.isEmpty then none
  else
    let afterFrac : List Char :=
      match afterInt with
      | '.' :: rest => rest.dropWhile Char.isDigit
      | _ => afterInt
    let mant : ℚ := (digitsToNat intDs : ℚ) + (digitsToNat fracDs : ℚ) / ((10 : ℚ) ^ fracDs.length)
    let expVal : Int :=
      match afterFrac with
      | 'e' :: rest => parseExpPart rest
      | 'E' :: rest => parseExpPart rest
      | _ => 0
    some (sr.1 * mant * (10 : ℚ) ^ expVal)

/-- Truncation toward zero, the behavior of JS parseInt on a number. -/
def jsTrunc (q : ℚ) : Int :=
  if 0 ≤ q then ⌊q⌋ else -⌊-q⌋

/-- JS parseInt applied to a row value; none models NaN. -/
def parseIntJS : JSVal → Option Int
  | JSVal.str s => parseIntStr s
  | JSVal.num q => some (jsTrunc q)
  | JSVal.nan => none
  | JSVal.bool _ => none
  | JSVal.null => none

/-- JS parseFloat applied to a row value; none models NaN. -/
def parseFloatJS : JSVal → Option ℚ
  | JSVal.str s => parseFloatStr s
  | JSVal.num q => some q
  | JSVal.nan => none
  | JSVal.bool _ => none
  | JSVal.null => none

/-- Identifier alias chain of the loader, for feature and class rows:
row.txId or-or row.id or-or row of "0" or-or row.node_id or-or
row.transaction_id. -/
def resolveTxIdF (row : Row) : Option JSVal :=
  jsOr (row.lookup "txId")
    (jsOr (row.lookup "id")
      (jsOr (row.lookup "0")
        (jsOr (row.lookup "node_id") (row.lookup "transaction_id"))))

/-- Classification label alias chain for class rows. -/
def resolveClassF (row : Row) : Option JSVal :=
  jsOr (row.lookup "class")
    (jsOr (row.lookup "1")
      (jsOr (row.lookup "label") (row.lookup "classification")))

/-- The effective resolved identifier of a row: the alias-chain value unless
it is undefined or null, in which case the row is skipped. -/
def resolvedId (row : Row) : Option JSVal :=
  match resolveTxIdF row with
  | none => none
  | some JSVal.null => none
  | some v => some v

/-- The classification index built by the loader: JS object mapping the
string coercion of a transaction id to the number parseInt produced
(none inside the value models NaN). -/
abbrev ClassMap := List (String × Option Int)

/-- One step of building the classification index from a class row: when
both the id and the label resolve to a non-undefined non-null value, insert
the parseInt coercion of the label under the String coercion of the id
(prepending, so lookup sees the latest write). -/
def classMapStep (m : ClassMap) (row : Row) : ClassMap :=
  let tid := resolveTxIdF row
  let cls := resolveClassF row
  match tid, cls with
  | some tv, some cv =>
    if tv = JSVal.null ∨ cv = JSVal.null then m
    else (jsToStr tv, parseIntJS cv) :: m
  | some _, none => m
  | none, _ => m

/-- The classification index built from all class rows, in order. -/
def buildClassMap (classes : List Row) : ClassMap :=
  classes.foldl classMapStep []

/-- The JS expression classMap at txId or-or 3: missing entry, NaN and 0 all
fall through to 3 (unknown); any other stored integer is returned. -/
def classOf (x : Option (Option Int)) : Int :=
  match x with
  | some (some i) => if i = 0 then 3 else i
  | some none => 3
  | none => 3

/-- Node type string for a classification number: 1 illicit, 2 licit,
anything else unknown. -/
def nodeTypeOf (c : Int) : String :=
  if c = 1 then "illicit" else if c = 2 then "licit" else "unknown"

/-- The identifier column aliases excluded from the feature sum. -/
def idAliases : List String :=
  ["txId", "id", "0", "node_id", "transaction_id"]

/-- The feature sum the loader computes for a node: over every column that
is not an identifier alias, add the parseFloat of the value, with NaN
contributing 0. -/
def featureSumOf (row : Row) : ℚ :=
  (row.filter (fun kv => !(idAliases.contains kv.1))).foldl
    (fun acc kv => acc + ((parseFloatJS kv.2).getD 0)) 0

/-- The node record pushed for an accepted feature row (the data object of
the Cytoscape node). -/
structure NodeData where
  id : String
  label : String
  type : String
  classification : String
  suspicious : String
  txId : JSVal
  featureSum : ℚ
  timestep : JSVal
  features : Row
deriving DecidableEq, Repr

/-- The edge record pushed for an accepted edge row (the data object of the
Cytoscape edge). -/
structure EdgeData where
  id : String
  source : String
  target : String
  amount : ℚ
  type : String
deriving DecidableEq, Repr

/-- The statistics object of the processed result. -/
structure Stats where
  total : ℕ
  illicit : ℕ
  licit : ℕ
  unknown : ℕ
  edges : ℕ
deriving DecidableEq, Repr

/-- The result object of processDataForVisualization. -/
structure ProcessResult where
  nodes : List NodeData
  edges : List EdgeData
  statistics : Stats
deriving DecidableEq, Repr

/-- Node construction for one feature row: skip when the resolved id is
undefined or null, otherwise emit the node record exactly as the source
builds it. -/
def mkNode (cm : ClassMap) (row : Row) : Option NodeData :=
  match resolvedId row with
  | none => none
  | some v =>
    let cls := classOf (cm.lookup (jsToStr v))
    some
      { id := "tx_" ++ jsToStr v
        label := "TX " ++ (jsToStr v).take 8
        type := "transaction"
        classification := nodeTypeOf cls
        suspicious := if cls = 1 then "true" else "false"
        txId := v
        featureSum := featureSumOf row
        timestep := jsOrDefault (jsOr (row.lookup "timestep") (row.lookup "time_step")) (JSVal.num 1)
        features := row }

/-- Edge candidate construction for one edge row at its original index:
resolve source and target through their alias chains, skip when either is
undefined or null. -/
def mkEdge (idx : ℕ) (row : Row) : Option EdgeData :=
  let s := jsOr (row.lookup "txId1")
    (jsOr (row.lookup "source")
      (jsOr (row.lookup "0") (jsOr (row.lookup "from") (row.lookup "node1"))))
  let t := jsOr (row.lookup "txId2")
    (jsOr (row.lookup "target")
      (jsOr (row.lookup "1") (jsOr (row.lookup "to") (row.lookup "node2"))))
  match s, t with
  | some sv, some tv =>
    if sv = JSVal.null ∨ tv = JSVal.null then none
    else some
      { id := "edge_" ++ toString idx
        source := "tx_" ++ jsToStr sv
        target := "tx_" ++ jsToStr tv
        amount := 1
        type := "transaction_flow" }
  | some _, none => none
  | none, _ => none

/-- The body of processDataForVisualization: build the classification index,
the nodes, the edge candidates, drop every candidate whose source or target
is not among the node ids, and tally statistics. -/
def processCore (classes features edgelist : List Row) : ProcessResult :=
  let cm := buildClassMap classes
  let nodes := features.filterMap (mkNode cm)
  let edges := edgelist.enum.filterMap (fun p => mkEdge p.1 p.2)
  let validNodeIds := nodes.map NodeData.id
  let validEdges := edges.filter (fun e => validNodeIds.contains e.source && validNodeIds.contains e.target)
  { nodes := nodes
    edges := validEdges
    statistics :=
      { total := nodes.length
        illicit := (nodes.filter (fun n => n.classification == "illicit")).length
        licit := (nodes.filter (fun n => n.classification == "licit")).length
        unknown := (nodes.filter (fun n => n.classification == "unknown")).length
        edges := validEdges.length } }

/-- The mutable fields of an EllipticDataLoader instance. -/
structure LoaderState where
  features : List Row
  classes : List Row
  edgelist : List Row
  isLoaded : Bool
deriving DecidableEq, Repr

/-- processDataForVisualization: throws when no dataset is loaded, otherwise
processes the stored tables. -/
def processDataForVisualization (s : LoaderState) : Except String ProcessResult :=
  if s.isLoaded = false then Except.error "Dataset not loaded yet"
  else Except.ok (processCore s.classes s.features s.edgelist)

/-- The classification number assigned to a feature row by the sampler loop
(none when the row is skipped for an unresolvable id). -/
def rowClassification (cm : ClassMap) (row : Row) : Option Int :=
  match resolvedId row with
  | none => none
  | some v => some (classOf (cm.lookup (jsToStr v)))

/-- The illicit partition of the feature rows, in original order. -/
def illicitTxsOf (cm : ClassMap) (features : List Row) : List Row :=
  features.filter (fun r => rowClassification cm r == some 1)

/-- The licit partition of the feature rows, in original order. -/
def licitTxsOf (cm : ClassMap) (features : List Row) : List Row :=
  features.filter (fun r => rowClassification cm r == some 2)

/-- The unknown partition of the feature rows, in original order. -/
def unknownTxsOf (cm : ClassMap) (features : List Row) : List Row :=
  features.filter (fun r =>
    match rowClassification cm r with
    | some c => !(c == 1) && !(c == 2)
    | none => false)

/-- The sample the sampler assembles: prefix takes of the three class
partitions, with sampleSize = min maxNodes (number of feature rows) and
proportions 10, 40 and 50 percent, concatenated illicit, licit, unknown. -/
def sampleFeaturesOf (s : LoaderState) (maxNodes : ℕ) : List Row :=
  let cm := buildClassMap s.classes
  let illicitTxs := illicitTxsOf cm s.features
  let licitTxs := licitTxsOf cm s.features
  let unknownTxs := unknownTxsOf cm s.features
  let sampleSize := min maxNodes s.features.length
  let illicitSample := illicitTxs.take (min (sampleSize / 10) illicitTxs.length)
  let licitSample := licitTxs.take (min (sampleSize * 4 / 10) licitTxs.length)
  let unknownSample := unknownTxs.take (min (sampleSize * 5 / 10) unknownTxs.length)
  illicitSample ++ licitSample ++ unknownSample

/-- loadSampleSubset: throws when no dataset is loaded; otherwise swaps the
features field for the assembled sample, processes, and restores the
original features (the source restores only on the success path; on the
error path the wrapped error escapes with the swap still in place). -/
def loadSampleSubset (s : LoaderState) (maxNodes : ℕ) : Except String ProcessResult × LoaderState :=
  if s.isLoaded = false then (Except.error "Dataset not loaded yet", s)
  else
    let sampleFeatures := sampleFeaturesOf s maxNodes
    let swapped : LoaderState := { s with features := sampleFeatures }
    match processDataForVisualization swapped with
    | Except.ok r => (Except.ok r, { swapped with features := s.features })
    | Except.error e => (Except.error ("Sample creation failed: " ++ e), swapped)

/-- loadCSV after parsing: reject a table that parsed to zero rows, naming
the file. -/
def loadCSV (name : String) (rows : List Row) : Except String (List Row) :=
  if rows.length = 0 then Except.error ("No data found in " ++ name)
  else Except.ok rows

/-- loadFromFiles given the three parsed tables and their file names: fail
when any table is empty (first at the per-file check, then at the redundant
validation), otherwise store the tables, mark loaded, and process. -/
def loadFromFiles (s : LoaderState) (fname cname ename : String)
    (featuresRows classesRows edgesRows : List Row) :
    Except String ProcessResult × LoaderState :=
  match loadCSV fname featuresRows with
  | Except.error e => (Except.error e, s)
  | Except.ok features =>
    match loadCSV cname classesRows with
    | Except.error e => (Except.error e, s)
    | Except.ok classes =>
      match loadCSV ename edgesRows with
      | Except.error e => (Except.error e, s)
      | Except.ok edges =>
        if features.length = 0 then (Except.error "Features file is empty or invalid", s)
        else if classes.length = 0 then (Except.error "Classes file is empty or invalid", s)
        else if edges.length = 0 then (Except.error "Edges file is empty or invalid", s)
        else
          let sl : LoaderState :=
            { features := features, classes := classes, edgelist := edges, isLoaded := true }
          (processDataForVisualization sl, sl)

/-- Modelled from the spec, for refinement comparison (section 4.2): the
identifier resolution the spec describes, returning the first present,
non-null value among the aliases. -/
def specFirstNonNull : List (Option JSVal) → Option JSVal
  | [] => none
  | some v :: rest => if v = JSVal.null then specFirstNonNull rest else some v
  | none :: rest => specFirstNonNull rest

/-- Modelled from the spec, for refinement comparison: spec identifier
resolution over the loader alias list. -/
def specResolveId (row : Row) : Option JSVal :=
  specFirstNonNull
    [row.lookup "txId", row.lookup "id", row.lookup "0",
      row.lookup "node_id", row.lookup "transaction_id"]

/-- The timestep column aliases appearing anywhere in the repository. -/
def timestepAliases : List String :=
  ["timestep", "time_step", "Time step"]

/-- Modelled from the spec, for refinement comparison (section 4.4): the
feature sum over columns that are neither identifier nor timestep columns,
unparsable values contributing 0. -/
def specFeatureSum (row : Row) : ℚ :=
  ((row.filter (fun kv => !(idAliases.contains kv.1) && !(timestepAliases.contains kv.1))).map
    (fun kv => (parseFloatJS kv.2).getD 0)).sum

/-- The feature sum the code actually computes, written as a map-sum over
the non-identifier columns (timestep columns included). -/
def amendedFeatureSum (row : Row) : ℚ :=
  ((row.filter (fun kv => !(idAliases.contains kv.1))).map
    (fun kv => (parseFloatJS kv.2).getD 0)).sum

/-! ## Helper lemmas -/

theorem foldl_add_eq_sum (l : List (String × JSVal)) (a : ℚ) :
    l.foldl (fun acc kv => acc + ((parseFloatJS kv.2).getD 0)) a =
    a + (l.map (fun kv => (parseFloatJS kv.2).getD 0)).sum := by
  induction l generalizing a with
  | nil => simp
  | cons x xs ih => simp [ih, add_assoc]

theorem featureSumOf_eq (row : Row) : featureSumOf row = amendedFeatureSum row := by
  unfold featureSumOf amendedFeatureSum
  rw [foldl_add_eq_sum, zero_add]

theorem mkNode_some_elim (cm : ClassMap) (row : Row) (node : NodeData)
    (h : mkNode cm row = some node) :
    resolvedId row = some node.txId ∧
    node.classification = nodeTypeOf (classOf (cm.lookup (jsToStr node.txId))) ∧
    node.featureSum = featureSumOf row := by
  unfold mkNode at h
  cases hres : resolvedId row with
  | none => rw [hres] at h; exact absurd h (by simp)
  | some v =>
    rw [hres] at h
    rw [Option.some.injEq] at h
    subst h
    exact ⟨rfl, rfl, rfl⟩

theorem rowClassification_some (cm : ClassMap) (row : Row) (c : Int)
    (h : rowClassification cm row = some c) :
    ∃ v, resolvedId row = some v ∧ classOf (cm.lookup (jsToStr v)) = c := by
  unfold rowClassification at h
  cases hres : resolvedId row with
  | none => rw [hres] at h; exact absurd h (by simp)
  | some v =>
    rw [hres] at h
    exact ⟨v, rfl, Option.some.inj h⟩

theorem mkNode_of_rowClassification (cm : ClassMap) (row : Row) (c : Int)
    (h : rowClassification cm row = some c) :
    ∃ node, mkNode cm row = some node ∧ node.classification = nodeTypeOf c := by
  obtain ⟨v, hres, hc⟩ := rowClassification_some cm row c h
  unfold mkNode
  rw [hres]
  exact ⟨_, rfl, by simp [hc]⟩

theorem filterMap_mkNode_replicate (cm : ClassMap) (t : String) :
    ∀ (l : List Row), (∀ r ∈ l, ∃ c, rowClassification cm r = some c ∧ nodeTypeOf c = t) →
    (l.filterMap (mkNode cm)).map NodeData.classification = List.replicate l.length t := by
  intro l
  induction l with
  | nil => intro _; simp
  | cons r rs ih =>
    intro h
    obtain ⟨c, hc, ht⟩ := h r (List.mem_cons_self r rs)
    obtain ⟨node, hn, hcl⟩ := mkNode_of_rowClassification cm r c hc
    have hrest := ih (fun x hx => h x (List.mem_cons_of_mem r hx))
    simp [List.filterMap_cons, hn, List.replicate_succ, hrest, hcl, ht]

theorem count_three (l : List NodeData)
    (h : ∀ x ∈ l, x.classification = "illicit" ∨ x.classification = "licit" ∨
      x.classification = "unknown") :
    (l.filter (fun n => n.classification == "illicit")).length +
    (l.filter (fun n => n.classification == "licit")).length +
    (l.filter (fun n => n.classification == "unknown")).length = l.length := by
  induction l with
  | nil => simp
  | cons x xs ih =>
    have hx := h x (List.mem_cons_self x xs)
    have hxs := ih (fun y hy => h y (List.mem_cons_of_mem x hy))
    rcases hx with h1 | h1 | h1 <;> simp [List.filter_cons, h1] <;> omega

theorem mkNode_classification_cases (cm : ClassMap) (row : Row) (node : NodeData)
    (h : mkNode cm row = some node) :
    node.classification = "illicit" ∨ node.classification = "licit" ∨
    node.classification = "unknown" := by
  obtain ⟨-, h2, -⟩ := mkNode_some_elim cm row node h
  rw [h2]
  unfold nodeTypeOf
  split_ifs <;> simp

theorem contains_mem (l : List String) (a : String) (h : l.contains a = true) : a ∈ l := by
  simpa using h

theorem process_ok (s : LoaderState) (r : ProcessResult)
    (h : processDataForVisualization s = Except.ok r) :
    r = processCore s.classes s.features s.edgelist := by
  unfold processDataForVisualization at h
  by_cases hl : s.isLoaded = false
  · rw [if_pos hl] at h; exact absurd h (by simp)
  · rw [if_neg hl] at h
    simpa using h.symm

theorem loadSampleSubset_state (s : LoaderState) (n : ℕ) : (loadSampleSubset s n).2 = s := by
  cases s with
  | mk f c e il => cases il <;> rfl

/-! ## Claim C1: no dangling edges, and the edge statistic counts retained edges -/

/-- C1: every edge of the graph assembled by processDataForVisualization has
its source and target among the ids of that graph's nodes, and
statistics.edges equals the number of retained edges. -/
theorem claim_c1 (s : LoaderState) (r : ProcessResult) (e : EdgeData)
    (h : processDataForVisualization s = Except.ok r) (he : e ∈ r.edges) :
    (e.source ∈ r.nodes.map NodeData.id ∧ e.target ∈ r.nodes.map NodeData.id) ∧
    r.statistics.edges = r.edges.length := by
  have hr := process_ok s r h
  subst hr
  refine ⟨?_, rfl⟩
  simp only [processCore] at he ⊢
  rw [List.mem_filter] at he
  obtain ⟨-, hp⟩ := he
  rw [Bool.and_eq_true] at hp
  exact ⟨contains_mem _ _ hp.1, contains_mem _ _ hp.2⟩

def stateC1 : LoaderState :=
  { features := [[("txId", JSVal.num 1)], [("txId", JSVal.num 2)]]
    classes := [[("txId", JSVal.num 1), ("class", JSVal.num 1)]]
    edgelist := [[("txId1", JSVal.num 1), ("txId2", JSVal.num 2)],
      [("txId1", JSVal.num 3), ("txId2", JSVal.num 9)]]
    isLoaded := true }

def resultC1 : ProcessResult := processCore stateC1.classes stateC1.features stateC1.edgelist

def edgeC1 : EdgeData :=
  { id := "edge_0", source := "tx_1", target := "tx_2", amount := 1, type := "transaction_flow" }

/-- C1 witness at a concrete loader state with one retained and one dropped edge. -/
theorem claim_c1_witness :
    (edgeC1.source ∈ resultC1.nodes.map NodeData.id ∧
      edgeC1.target ∈ resultC1.nodes.map NodeData.id) ∧
    resultC1.statistics.edges = resultC1.edges.length :=
  claim_c1 stateC1 resultC1 edgeC1 rfl (by decide)

/-! ## Claim C2: assembly and sampling are deterministic -/

/-- C2: processDataForVisualization on a fixed state is a pure function of
that state, and a repeated loadSampleSubset call with the same maxNodes,
issued from the state the first call leaves behind, returns the identical
result and state. -/
theorem claim_c2 (s : LoaderState) (n : ℕ) :
    processDataForVisualization s = processDataForVisualization s ∧
    loadSampleSubset ((loadSampleSubset s n).2) n = loadSampleSubset s n :=
  ⟨rfl, by rw [loadSampleSubset_state]⟩

/-! ## Claim C3: a feature row with no classification entry yields Unknown -/

/-- C3: a node emitted by processDataForVisualization whose transaction id
has no entry in the classification index has classification unknown. -/
theorem claim_c3 (s : LoaderState) (r : ProcessResult) (node : NodeData)
    (h : processDataForVisualization s = Except.ok r) (hmem : node ∈ r.nodes)
    (habs : (buildClassMap s.classes).lookup (jsToStr node.txId) = none) :
    node.classification = "unknown" := by
  have hr := process_ok s r h
  subst hr
  simp only [processCore] at hmem
  obtain ⟨row, -, hn⟩ := List.mem_filterMap.mp hmem
  obtain ⟨-, h2, -⟩ := mkNode_some_elim _ _ _ hn
  rw [h2, habs]
  rfl

def stateC3 : LoaderState :=
  { features := [[("txId", JSVal.num 9)]]
    classes := [[("txId", JSVal.num 1), ("class", JSVal.num 1)]]
    edgelist := [[("txId1", JSVal.num 9), ("txId2", JSVal.num 9)]]
    isLoaded := true }

def resultC3 : ProcessResult := processCore stateC3.classes stateC3.features stateC3.edgelist

def nodeC3 : NodeData :=
  { id := "tx_9", label := "TX 9", type := "transaction", classification := "unknown"
    suspicious := "false", txId := JSVal.num 9, featureSum := 0, timestep := JSVal.num 1
    features := [("txId", JSVal.num 9)] }

/-- C3 witness: transaction 9 has no class entry and comes out unknown. -/
theorem claim_c3_witness : nodeC3.classification = "unknown" :=
  claim_c3 stateC3 resultC3 nodeC3 rfl (by decide) (by decide)

/-! ## Claim C8: statistics sum invariant -/

/-- C8: statistics.total equals the node count, and the illicit, licit and
unknown tallies sum to the total. -/
theorem claim_c8 (s : LoaderState) (r : ProcessResult)
    (h : processDataForVisualization s = Except.ok r) :
    r.statistics.total = r.nodes.length ∧
    r.statistics.illicit + r.statistics.licit + r.statistics.unknown = r.statistics.total := by
  have hr := process_ok s r h
  subst hr
  refine ⟨rfl, ?_⟩
  simp only [processCore]
  apply count_three
  intro x hx
  obtain ⟨row, -, hn⟩ := List.mem_filterMap.mp hx
  exact mkNode_classification_cases _ _ _ hn

def stateC8 : LoaderState :=
  { features := [[("txId", JSVal.num 1)], [("txId", JSVal.num 2)], [("txId", JSVal.num 3)]]
    classes := [[("txId", JSVal.num 1), ("class", JSVal.num 1)],
      [("txId", JSVal.num 2), ("class", JSVal.num 2)]]
    edgelist := [[("txId1", JSVal.num 1), ("txId2", JSVal.num 2)]]
    isLoaded := true }

def resultC8 : ProcessResult := processCore stateC8.classes stateC8.features stateC8.edgelist

/-- C8 witness at a concrete state with one node of each class. -/
theorem claim_c8_witness :
    resultC8.statistics.total = resultC8.nodes.length ∧
    resultC8.statistics.illicit + resultC8.statistics.licit + resultC8.statistics.unknown =
      resultC8.statistics.total :=
  claim_c8 stateC8 resultC8 rfl

/-! ## Claim C9: loading fails exactly on an empty table, naming it -/

/-- C9: loading fails if and only if one of the three parsed tables is
empty, and the error names the empty table's file; row-level anomalies never
make the load fail. -/
theorem claim_c9 (s : LoaderState) (fname cname ename : String) (fr cr er : List Row) :
    ((∃ msg, (loadFromFiles s fname cname ename fr cr er).1 = Except.error msg) ↔
      (fr = [] ∨ cr = [] ∨ er = [])) ∧
    (fr = [] → (loadFromFiles s fname cname ename fr cr er).1 =
      Except.error ("No data found in " ++ fname)) ∧
    (fr ≠ [] → cr = [] → (loadFromFiles s fname cname ename fr cr er).1 =
      Except.error ("No data found in " ++ cname)) ∧
    (fr ≠ [] → cr ≠ [] → er = [] → (loadFromFiles s fname cname ename fr cr er).1 =
      Except.error ("No data found in " ++ ename)) := by
  rcases fr with - | ⟨f0, ft⟩ <;> rcases cr with - | ⟨c0, ct⟩ <;> rcases er with - | ⟨e0, et⟩ <;>
    simp [loadFromFiles, loadCSV, processDataForVisualization]

/-- C9 witness: zero class rows with non-empty features and edges raises the
empty-data error naming the classes file. -/
theorem claim_c9_witness :
    (loadFromFiles { features := [], classes := [], edgelist := [], isLoaded := false }
      "features.csv" "classes.csv" "edges.csv"
      [[("txId", JSVal.num 1)]] [] [[("txId1", JSVal.num 1)]]).1 =
    Except.error ("No data found in " ++ "classes.csv") :=
  (claim_c9 { features := [], classes := [], edgelist := [], isLoaded := false }
    "features.csv" "classes.csv" "edges.csv"
    [[("txId", JSVal.num 1)]] [] [[("txId1", JSVal.num 1)]]).2.2.1 (by simp) rfl

/-! ## Claim C10: sampling leaves the loader state intact -/

/-- C10: after loadSampleSubset returns, error or not, the loader fields
features, classes and edgelist equal their values before the call. -/
theorem claim_c10 (s : LoaderState) (n : ℕ) : (loadSampleSubset s n).2 = s :=
  loadSampleSubset_state s n

/-! ## Claim C4: label coercion and the classification index -/

def rowC4 : Row := [("txId", JSVal.num 7), ("class", JSVal.str "3")]

/-- C4 counterexample: a class row with label string 3 does get an index
entry (value 3), contradicting the claim that no entry is inserted. -/
theorem claim_c4_counterexample :
    (buildClassMap [rowC4]).lookup "7" = some (some 3) ∧
    ¬(buildClassMap [rowC4]).lookup "7" = none := by
  decide

/-- C4 amended: every class row whose id and label resolve to non-null
values gets an index entry holding the integer coercion of the label,
whatever it is; downstream, any entry other than 1 or 2 (and any missing
entry) yields classification unknown, so the observable default matches. -/
theorem claim_c4 (m : ClassMap) (row : Row) (tid cv : JSVal) (x : Option (Option Int))
    (h1 : resolveTxIdF row = some tid) (h2 : ¬tid = JSVal.null)
    (h3 : resolveClassF row = some cv) (h4 : ¬cv = JSVal.null)
    (hx1 : ¬x = some (some 1)) (hx2 : ¬x = some (some 2)) :
    classMapStep m row = (jsToStr tid, parseIntJS cv) :: m ∧
    nodeTypeOf (classOf x) = "unknown" := by
  constructor
  · simp [classMapStep, h1, h3, h2, h4]
  · rcases x with - | x
    · rfl
    rcases x with - | i
    · rfl
    · have hi1 : ¬i = 1 := fun h => hx1 (by rw [h])
      have hi2 : ¬i = 2 := fun h => hx2 (by rw [h])
      unfold classOf nodeTypeOf
      by_cases h0 : i = 0
      · simp [h0]
      · simp [h0, hi1, hi2]

/-- C4 witness at the class row with txId 7 and label string 3. -/
theorem claim_c4_witness :
    classMapStep [] rowC4 = (jsToStr (JSVal.num 7), parseIntJS (JSVal.str "3")) :: [] ∧
    nodeTypeOf (classOf (some (some 3))) = "unknown" :=
  claim_c4 [] rowC4 (JSVal.num 7) (JSVal.str "3") (some (some 3))
    (by decide) (by decide) (by decide) (by decide) (by decide) (by decide)

/-! ## Claim C5: the feature sum includes timestep columns -/

def rowC5 : Row := [("txId", JSVal.num 1), ("timestep", JSVal.num 5)]

def nodeC5 : NodeData :=
  { id := "tx_1", label := "TX 1", type := "transaction", classification := "unknown"
    suspicious := "false", txId := JSVal.num 1, featureSum := featureSumOf rowC5
    timestep := JSVal.num 5, features := rowC5 }

/-- C5 counterexample: a feature row whose only non-identifier column is the
timestep column timestep with value 5 yields a node with featureSum 5,
while the claimed sum over non-identifier non-timestep columns is 0. -/
theorem claim_c5_counterexample :
    mkNode [] rowC5 = some nodeC5 ∧ nodeC5.featureSum = 5 ∧ specFeatureSum rowC5 = 0 := by
  refine ⟨rfl, ?_, ?_⟩
  · show featureSumOf rowC5 = 5
    rw [featureSumOf_eq]
    simp +decide [amendedFeatureSum, rowC5, idAliases, parseFloatJS]
  · simp +decide [specFeatureSum, rowC5, idAliases, timestepAliases]

/-- C5 amended: the emitted featureSum is the sum of the numeric-parseable
values of all columns outside the five identifier aliases, timestep columns
included, with unparsable values contributing 0. -/
theorem claim_c5 (cm : ClassMap) (row : Row) (node : NodeData)
    (h : mkNode cm row = some node) :
    node.featureSum = amendedFeatureSum row := by
  obtain ⟨-, -, h3⟩ := mkNode_some_elim cm row node h
  rw [h3, featureSumOf_eq]

/-- C5 witness at the timestep-only row. -/
theorem claim_c5_witness : nodeC5.featureSum = amendedFeatureSum rowC5 :=
  claim_c5 [] rowC5 nodeC5 rfl

/-! ## Claim C6: identifier resolution takes the first truthy alias -/

def rowC6 : Row := [("txId", JSVal.num 0), ("node_id", JSVal.num 5)]

/-- C6 counterexample: with txId present as the non-null number 0, the
resolver skips it (0 is falsy) and returns the node_id value 5, while the
claimed first-present-non-null rule would return 0. -/
theorem claim_c6_counterexample :
    resolveTxIdF rowC6 = some (JSVal.num 5) ∧ specResolveId rowC6 = some (JSVal.num 0) := by
  decide

/-- C6 amended: the resolver tries txId, id, the positional column 0,
node_id, transaction_id in order and returns the first truthy value
(present falsy values such as 0 are skipped). A row whose only identifier
column is node_id with a truthy value resolves to it and still produces a
node, and a truthy txId always wins. -/
theorem claim_c6 (row row2 : Row) (v w : JSVal) (cm : ClassMap)
    (h0 : row.lookup "txId" = none) (h1 : row.lookup "id" = none)
    (h2 : row.lookup "0" = none) (h3 : row.lookup "node_id" = some v)
    (hv : truthy v = true)
    (h4 : row2.lookup "txId" = some w) (hw : truthy w = true) :
    resolveTxIdF row = some v ∧ (mkNode cm row).isSome = true ∧
    resolveTxIdF row2 = some w := by
  have hres : resolveTxIdF row = some v := by
    simp [resolveTxIdF, jsOr, h0, h1, h2, h3, hv]
  have hrid : resolvedId row = some v := by
    unfold resolvedId
    rw [hres]
    rcases v with s | q | - | b | - <;> simp_all [truthy]
  refine ⟨hres, ?_, by simp [resolveTxIdF, jsOr, h4, hw]⟩
  simp [mkNode, hrid]

/-- C6 witness: a node_id-only row resolves and yields a node; a txId row
resolves to its txId. -/
theorem claim_c6_witness :
    resolveTxIdF [("node_id", JSVal.num 5)] = some (JSVal.num 5) ∧
    (mkNode [] [("node_id", JSVal.num 5)]).isSome = true ∧
    resolveTxIdF [("txId", JSVal.num 7)] = some (JSVal.num 7) :=
  claim_c6 [("node_id", JSVal.num 5)] [("txId", JSVal.num 7)] (JSVal.num 5) (JSVal.num 7) []
    (by decide) (by decide) (by decide) (by decide) (by decide) (by decide) (by decide)

/-! ## Claim C7: stratified sampling prefix takes, order, and cap -/

def stateC7 : LoaderState :=
  { features := [[("txId", JSVal.num 1)], [("txId", JSVal.num 2)], [("txId", JSVal.num 3)],
      [("txId", JSVal.num 4)], [("txId", JSVal.num 5)], [("txId", JSVal.num 6)],
      [("txId", JSVal.num 7)], [("txId", JSVal.num 8)], [("txId", JSVal.num 9)],
      [("txId", JSVal.num 10)]]
    classes := [[("txId", JSVal.num 1), ("class", JSVal.num 1)],
      [("txId", JSVal.num 2), ("class", JSVal.num 1)],
      [("txId", JSVal.num 3), ("class", JSVal.num 1)],
      [("txId", JSVal.num 4), ("class", JSVal.num 1)],
      [("txId", JSVal.num 5), ("class", JSVal.num 1)],
      [("txId", JSVal.num 6), ("class", JSVal.num 1)],
      [("txId", JSVal.num 7), ("class", JSVal.num 1)],
      [("txId", JSVal.num 8), ("class", JSVal.num 1)],
      [("txId", JSVal.num 9), ("class", JSVal.num 1)],
      [("txId", JSVal.num 10), ("class", JSVal.num 1)]]
    edgelist := [[("txId1", JSVal.num 1), ("txId2", JSVal.num 2)]]
    isLoaded := true }

/-- C7 counterexample: with 10 feature rows all illicit and maxNodes 100,
the sampler returns 1 illicit node, while the claimed prefix length
min (floor (targetMax * 0.1)) partitionSize would be 10: the code floors
min (maxNodes, featureRows) * 0.1, not targetMax * 0.1. -/
theorem claim_c7_counterexample :
    ((loadSampleSubset stateC7 100).1.toOption.map (fun r => r.statistics.illicit)) = some 1 ∧
    (illicitTxsOf (buildClassMap stateC7.classes) stateC7.features).length = 10 ∧
    ¬(1 : ℕ) = min (100 / 10) 10 := by
  decide

/-- C7 amended: the sampler takes an order-preserving prefix of length
min (floor (min (targetMax, featureRowCount) * p)) partitionSize from each
class partition, with p = 0.1, 0.4, 0.5 and no hard caps, concatenated in
the order illicit, licit, unknown; the illicit count therefore never
exceeds floor (targetMax * 0.1). -/
theorem claim_c7 (s : LoaderState) (n : ℕ) (r : ProcessResult)
    (hl : s.isLoaded = true)
    (hr : (loadSampleSubset s n).1 = Except.ok r) :
    r.nodes.map NodeData.classification =
      List.replicate (min (min n s.features.length / 10)
        (illicitTxsOf (buildClassMap s.classes) s.features).length) "illicit" ++
      List.replicate (min (min n s.features.length * 4 / 10)
        (licitTxsOf (buildClassMap s.classes) s.features).length) "licit" ++
      List.replicate (min (min n s.features.length * 5 / 10)
        (unknownTxsOf (buildClassMap s.classes) s.features).length) "unknown" ∧
    r.statistics.illicit = min (min n s.features.length / 10)
      (illicitTxsOf (buildClassMap s.classes) s.features).length ∧
    r.statistics.illicit ≤ n / 10 := by
  have hr2 : r = processCore s.classes (sampleFeaturesOf s n) s.edgelist := by
    unfold loadSampleSubset at hr
    simp [hl, processDataForVisualization] at hr
    exact hr.symm
  subst hr2
  set cm := buildClassMap s.classes with hcm
  set I := illicitTxsOf cm s.features with hI
  set L := licitTxsOf cm s.features with hL
  set U := unknownTxsOf cm s.features with hU
  set S := min n s.features.length with hS
  set kA := min (S / 10) I.length with hkA
  set kB := min (S * 4 / 10) L.length with hkB
  set kC := min (S * 5 / 10) U.length with hkC
  have hsf : sampleFeaturesOf s n = I.take kA ++ L.take kB ++ U.take kC := rfl
  have hA : ∀ rr ∈ I.take kA, ∃ c, rowClassification cm rr = some c ∧ nodeTypeOf c = "illicit" := by
    intro rr hmem
    have hm2 : rr ∈ I := List.take_subset _ _ hmem
    have hp := List.of_mem_filter hm2
    rw [beq_iff_eq] at hp
    exact ⟨1, hp, rfl⟩
  have hB : ∀ rr ∈ L.take kB, ∃ c, rowClassification cm rr = some c ∧ nodeTypeOf c = "licit" := by
    intro rr hmem
    have hm2 : rr ∈ L := List.take_subset _ _ hmem
    have hp := List.of_mem_filter hm2
    rw [beq_iff_eq] at hp
    exact ⟨2, hp, rfl⟩
  have hC : ∀ rr ∈ U.take kC, ∃ c, rowClassification cm rr = some c ∧ nodeTypeOf c = "unknown" := by
    intro rr hmem
    have hm2 : rr ∈ U := List.take_subset _ _ hmem
    have hp := List.of_mem_filter hm2
    cases hc : rowClassification cm rr with
    | none => rw [hc] at hp; exact absurd hp (by simp)
    | some c =>
      rw [hc] at hp
      simp at hp
      refine ⟨c, rfl, ?_⟩
      unfold nodeTypeOf
      rw [if_neg hp.1, if_neg hp.2]
  have e1 := filterMap_mkNode_replicate cm "illicit" (I.take kA) hA
  have e2 := filterMap_mkNode_replicate cm "licit" (L.take kB) hB
  have e3 := filterMap_mkNode_replicate cm "unknown" (U.take kC) hC
  have lA : (I.take kA).length = kA := by
    rw [List.length_take]
    exact Nat.min_eq_left (Nat.min_le_right _ _)
  have lB : (L.take kB).length = kB := by
    rw [List.length_take]
    exact Nat.min_eq_left (Nat.min_le_right _ _)
  have lC : (U.take kC).length = kC := by
    rw [List.length_take]
    exact Nat.min_eq_left (Nat.min_le_right _ _)
  have hnodes : (processCore s.classes (sampleFeaturesOf s n) s.edgelist).nodes =
      (I.take kA).filterMap (mkNode cm) ++ (L.take kB).filterMap (mkNode cm) ++
      (U.take kC).filterMap (mkNode cm) := by
    simp only [processCore, hsf, List.filterMap_append]
  have hmap : (processCore s.classes (sampleFeaturesOf s n) s.edgelist).nodes.map
      NodeData.classification =
      List.replicate kA "illicit" ++ List.replicate kB "licit" ++ List.replicate kC "unknown" := by
    rw [hnodes]
    rw [List.map_append, List.map_append, e1, e2, e3, lA, lB, lC]
  have hillicit : (processCore s.classes (sampleFeaturesOf s n) s.edgelist).statistics.illicit
      = kA := by
    show ((processCore s.classes (sampleFeaturesOf s n) s.edgelist).nodes.filter
      (fun nd => nd.classification == "illicit")).length = kA
    rw [← List.countP_eq_length_filter]
    have hcp := List.countP_map (fun x => x == "illicit") NodeData.classification
      (processCore s.classes (sampleFeaturesOf s n) s.edgelist).nodes
    have hfeq : (fun nd : NodeData => nd.classification == "illicit") =
        ((fun x => x == "illicit") ∘ NodeData.classification) := rfl
    rw [hfeq, ← hcp, hmap]
    simp [List.countP_append, List.countP_replicate]
  refine ⟨hmap, hillicit, ?_⟩
  rw [hillicit]
  calc kA ≤ S / 10 := Nat.min_le_left _ _
    _ ≤ n / 10 := Nat.div_le_div_right (Nat.min_le_left _ _)

def resultC7 : ProcessResult :=
  processCore stateC7.classes (sampleFeaturesOf stateC7 100) stateC7.edgelist

/-- C7 witness at the concrete 10-row all-illicit state. -/
theorem claim_c7_witness :
    resultC7.nodes.map NodeData.classification =
      List.replicate (min (min 100 stateC7.features.length / 10)
        (illicitTxsOf (buildClassMap stateC7.classes) stateC7.features).length) "illicit" ++
      List.replicate (min (min 100 stateC7.features.length * 4 / 10)
        (licitTxsOf (buildClassMap stateC7.classes) stateC7.features).length) "licit" ++
      List.replicate (min (min 100 stateC7.features.length * 5 / 10)
        (unknownTxsOf (buildClassMap stateC7.classes) stateC7.features).length) "unknown" ∧
    resultC7.statistics.illicit = min (min 100 stateC7.features.length / 10)
      (illicitTxsOf (buildClassMap stateC7.classes) stateC7.features).length ∧
    resultC7.statistics.illicit ≤ 100 / 10 :=
  claim_c7 stateC7 100 resultC7 rfl rfl
